import Mathlib

/-!
Verification of the sonic ML inference service (ml-service/app/main.py).

Shallow embedding: the pydantic feature record becomes a Lean structure,
the numpy preprocessing becomes a pure function into `List ℚ`, the opaque
sklearn artifact becomes a structure of (fallible) functions, the FastAPI
endpoints become total Lean functions returning `Except HTTPError _`, and
the global model state becomes an explicit `ServerState` value.
Machine floats are modelled by ℚ; wall-clock readings are passed in as
explicit parameters.
-/

namespace Sonic

/-- The 41-field feature record, mirroring the pydantic model
`NetworkTrafficFeatures` (main.py lines 56-98).  Float fields are ℚ,
int fields are ℤ, the three categorical fields are `String`.  The pydantic
range constraints (`ge`/`le`) are captured by the separate `Valid`
predicate, since a validated record satisfies them. -/
structure NetworkTrafficFeatures where
  duration : ℚ
  protocol_type : String
  service : String
  flag : String
  src_bytes : ℤ
  dst_bytes : ℤ
  land : ℤ
  wrong_fragment : ℤ
  urgent : ℤ
  hot : ℤ
  num_failed_logins : ℤ
  logged_in : ℤ
  num_compromised : ℤ
  root_shell : ℤ
  su_attempted : ℤ
  num_root : ℤ
  num_file_creations : ℤ
  num_shells : ℤ
  num_access_files : ℤ
  num_outbound_cmds : ℤ
  is_host_login : ℤ
  is_guest_login : ℤ
  count : ℤ
  srv_count : ℤ
  serror_rate : ℚ
  srv_serror_rate : ℚ
  rerror_rate : ℚ
  srv_rerror_rate : ℚ
  same_srv_rate : ℚ
  diff_srv_rate : ℚ
  srv_diff_host_rate : ℚ
  dst_host_count : ℤ
  dst_host_srv_count : ℤ
  dst_host_same_srv_rate : ℚ
  dst_host_diff_srv_rate : ℚ
  dst_host_same_src_port_rate : ℚ
  dst_host_srv_diff_host_rate : ℚ
  dst_host_serror_rate : ℚ
  dst_host_srv_serror_rate : ℚ
  dst_host_rerror_rate : ℚ
  dst_host_srv_rerror_rate : ℚ
deriving DecidableEq

/-- Validity of a feature record: exactly the pydantic `Field` range
constraints of main.py lines 58-98 (`ge=0` on byte and count fields,
`ge=0, le=1` on binary-indicator fields and on rate fields).  `duration`
and the three categorical strings carry no range constraint in the
source. -/
def Valid (f : NetworkTrafficFeatures) : Prop :=
  0 ≤ f.src_bytes ∧ 0 ≤ f.dst_bytes ∧
  (0 ≤ f.land ∧ f.land ≤ 1) ∧
  0 ≤ f.wrong_fragment ∧ 0 ≤ f.urgent ∧ 0 ≤ f.hot ∧
  0 ≤ f.num_failed_logins ∧
  (0 ≤ f.logged_in ∧ f.logged_in ≤ 1) ∧
  0 ≤ f.num_compromised ∧
  (0 ≤ f.root_shell ∧ f.root_shell ≤ 1) ∧
  (0 ≤ f.su_attempted ∧ f.su_attempted ≤ 1) ∧
  0 ≤ f.num_root ∧ 0 ≤ f.num_file_creations ∧ 0 ≤ f.num_shells ∧
  0 ≤ f.num_access_files ∧ 0 ≤ f.num_outbound_cmds ∧
  (0 ≤ f.is_host_login ∧ f.is_host_login ≤ 1) ∧
  (0 ≤ f.is_guest_login ∧ f.is_guest_login ≤ 1) ∧
  0 ≤ f.count ∧ 0 ≤ f.srv_count ∧
  (0 ≤ f.serror_rate ∧ f.serror_rate ≤ 1) ∧
  (0 ≤ f.srv_serror_rate ∧ f.srv_serror_rate ≤ 1) ∧
  (0 ≤ f.rerror_rate ∧ f.rerror_rate ≤ 1) ∧
  (0 ≤ f.srv_rerror_rate ∧ f.srv_rerror_rate ≤ 1) ∧
  (0 ≤ f.same_srv_rate ∧ f.same_srv_rate ≤ 1) ∧
  (0 ≤ f.diff_srv_rate ∧ f.diff_srv_rate ≤ 1) ∧
  (0 ≤ f.srv_diff_host_rate ∧ f.srv_diff_host_rate ≤ 1) ∧
  0 ≤ f.dst_host_count ∧ 0 ≤ f.dst_host_srv_count ∧
  (0 ≤ f.dst_host_same_srv_rate ∧ f.dst_host_same_srv_rate ≤ 1) ∧
  (0 ≤ f.dst_host_diff_srv_rate ∧ f.dst_host_diff_srv_rate ≤ 1) ∧
  (0 ≤ f.dst_host_same_src_port_rate ∧ f.dst_host_same_src_port_rate ≤ 1) ∧
  (0 ≤ f.dst_host_srv_diff_host_rate ∧ f.dst_host_srv_diff_host_rate ≤ 1) ∧
  (0 ≤ f.dst_host_serror_rate ∧ f.dst_host_serror_rate ≤ 1) ∧
  (0 ≤ f.dst_host_srv_serror_rate ∧ f.dst_host_srv_serror_rate ≤ 1) ∧
  (0 ≤ f.dst_host_rerror_rate ∧ f.dst_host_rerror_rate ≤ 1) ∧
  (0 ≤ f.dst_host_srv_rerror_rate ∧ f.dst_host_srv_rerror_rate ≤ 1)

instance (f : NetworkTrafficFeatures) : Decidable (Valid f) := by
  unfold Valid; infer_instance

/-- The encoder of main.py lines 152-182 (`preprocess_features`): the
explicit list of the 38 numeric/binary attribute reads, in the exact
source order; the three categorical fields are never read.  The final
`np.array(...).reshape(1, -1)` only fixes the 1×38 shape, so the
embedding is the flat 38-entry vector. -/
def preprocess_features (f : NetworkTrafficFeatures) : List ℚ :=
  [ f.duration, (f.src_bytes : ℚ), (f.dst_bytes : ℚ),
    (f.land : ℚ), (f.wrong_fragment : ℚ), (f.urgent : ℚ), (f.hot : ℚ),
    (f.num_failed_logins : ℚ), (f.logged_in : ℚ), (f.num_compromised : ℚ),
    (f.root_shell : ℚ), (f.su_attempted : ℚ), (f.num_root : ℚ),
    (f.num_file_creations : ℚ), (f.num_shells : ℚ), (f.num_access_files : ℚ),
    (f.num_outbound_cmds : ℚ), (f.is_host_login : ℚ), (f.is_guest_login : ℚ),
    (f.count : ℚ), (f.srv_count : ℚ), f.serror_rate,
    f.srv_serror_rate, f.rerror_rate, f.srv_rerror_rate,
    f.same_srv_rate, f.diff_srv_rate, f.srv_diff_host_rate,
    (f.dst_host_count : ℚ), (f.dst_host_srv_count : ℚ),
    f.dst_host_same_srv_rate, f.dst_host_diff_srv_rate,
    f.dst_host_same_src_port_rate, f.dst_host_srv_diff_host_rate,
    f.dst_host_serror_rate, f.dst_host_srv_serror_rate,
    f.dst_host_rerror_rate, f.dst_host_srv_rerror_rate ]

/-- The canonical ordering contract of the encoder: the 38 numeric/binary
projections of the record, in the fixed order of the source list. -/
def numericFeatureOrder : List (NetworkTrafficFeatures → ℚ) :=
  [ fun f => f.duration, fun f => (f.src_bytes : ℚ), fun f => (f.dst_bytes : ℚ),
    fun f => (f.land : ℚ), fun f => (f.wrong_fragment : ℚ),
    fun f => (f.urgent : ℚ), fun f => (f.hot : ℚ),
    fun f => (f.num_failed_logins : ℚ), fun f => (f.logged_in : ℚ),
    fun f => (f.num_compromised : ℚ), fun f => (f.root_shell : ℚ),
    fun f => (f.su_attempted : ℚ), fun f => (f.num_root : ℚ),
    fun f => (f.num_file_creations : ℚ), fun f => (f.num_shells : ℚ),
    fun f => (f.num_access_files : ℚ), fun f => (f.num_outbound_cmds : ℚ),
    fun f => (f.is_host_login : ℚ), fun f => (f.is_guest_login : ℚ),
    fun f => (f.count : ℚ), fun f => (f.srv_count : ℚ),
    fun f => f.serror_rate, fun f => f.srv_serror_rate,
    fun f => f.rerror_rate, fun f => f.srv_rerror_rate,
    fun f => f.same_srv_rate, fun f => f.diff_srv_rate,
    fun f => f.srv_diff_host_rate,
    fun f => (f.dst_host_count : ℚ), fun f => (f.dst_host_srv_count : ℚ),
    fun f => f.dst_host_same_srv_rate, fun f => f.dst_host_diff_srv_rate,
    fun f => f.dst_host_same_src_port_rate,
    fun f => f.dst_host_srv_diff_host_rate,
    fun f => f.dst_host_serror_rate, fun f => f.dst_host_srv_serror_rate,
    fun f => f.dst_host_rerror_rate, fun f => f.dst_host_srv_rerror_rate ]

/-- Replace only the three categorical fields of a record. -/
def setCategoricals (f : NetworkTrafficFeatures) (p s fl : String) :
    NetworkTrafficFeatures :=
  { f with protocol_type := p, service := s, flag := fl }

/-- The opaque sklearn artifact: `model.predict` returns an array of class
labels and `model.predict_proba` an array of class probabilities; either
call may raise at the model boundary (e.g. a shape mismatch), embedded as
`Except String`. -/
structure Model where
  predict : List ℚ → Except String (List ℤ)
  predict_proba : List ℚ → Except String (List ℚ)

/-- The response model `PredictionResponse` (main.py lines 101-107).  The
`timestamp` field (a `default_factory=datetime.utcnow` stamp) carries no
design content claimed about and is omitted. -/
structure PredictionResponse where
  prediction : String
  confidence : ℚ
  threat_type : Option String
  model_version : String
deriving DecidableEq

/-- The response model `BatchPredictionResponse` (main.py lines 115-119). -/
structure BatchPredictionResponse where
  predictions : List PredictionResponse
  total_processed : ℕ
  processing_time_ms : ℚ
deriving DecidableEq

/-- The response model `HealthResponse` (main.py lines 122-128). -/
structure HealthResponse where
  status : String
  model_loaded : Bool
  model_version : Option String
  model_loaded_at : Option ℚ
  uptime_seconds : ℚ
deriving DecidableEq

/-- An `HTTPException` as raised by the endpoints: a status code and a
detail string. -/
structure HTTPError where
  status : ℕ
  detail : String
deriving DecidableEq

/-- The module-level globals of main.py lines 36-39: the model handle
(`model`, `None` until loaded), the version tag and the load timestamp. -/
structure ServerState where
  model : Option Model
  model_version : String
  model_loaded_at : Option ℚ

/-- Readiness: the guard `model is not None` used by every endpoint. -/
def is_ready (st : ServerState) : Bool :=
  st.model.isSome

/-- The state of the globals at process start (main.py lines 36-39):
no model, version tag v1.0, no load timestamp. -/
def initialState : ServerState :=
  { model := none, model_version := "v1.0", model_loaded_at := none }

/-- The environment a `load_model` call runs against: the artifact file
exists and deserializes to a model at time `t`, or the file is missing
(`os.path.exists` false), or `joblib.load` raises. -/
inductive LoadEnv where
  | artifactOk (m : Model) (t : ℚ)
  | fileMissing
  | deserializeError

/-- Whether a load environment makes `load_model` return True. -/
def loadSucceeds : LoadEnv → Bool
  | .artifactOk _ _ => true
  | .fileMissing => false
  | .deserializeError => false

/-- `load_model` (main.py lines 131-149) as a state transition: on
success it assigns the globals `model` and `model_loaded_at` and returns
True; if the file is missing it returns False; if `joblib.load` raises,
the exception is caught before any global is assigned and it returns
False.  `model_version` is never written. -/
def load_model (env : LoadEnv) (st : ServerState) : ServerState × Bool :=
  match env with
  | .artifactOk m t => ({ st with model := some m, model_loaded_at := some t }, true)
  | .fileMissing => (st, false)
  | .deserializeError => (st, false)

/-- `array[0]` on a numpy result: the first element, or an IndexError
when the array is empty. -/
def index0 {α : Type} : List α → Except String α
  | [] => .error "index 0 is out of bounds"
  | x :: _ => .ok x

/-- `np.max` over the probability array: the maximum entry, or a
ValueError on an empty array. -/
def npMax : List ℚ → Except String ℚ
  | [] => .error "zero-size array to reduction operation maximum"
  | x :: xs => .ok (xs.foldl max x)

/-- The body of the `try` block shared by `predict` (main.py lines
218-235) and the per-item work of `predict_batch` (lines 259-272):
encode, call the artifact, take class `[0]` and max probability, and map
class 1 to label malicious with threat type unknown, anything else to
label normal with no threat type. -/
def inferOne (ver : String) (m : Model) (f : NetworkTrafficFeatures) :
    Except String PredictionResponse :=
  let arr := preprocess_features f
  match m.predict arr with
  | .error e => .error e
  | .ok preds =>
    match index0 preds with
    | .error e => .error e
    | .ok cls =>
      match m.predict_proba arr with
      | .error e => .error e
      | .ok probs =>
        match npMax probs with
        | .error e => .error e
        | .ok conf =>
          .ok { prediction := if cls = 1 then "malicious" else "normal"
              , confidence := conf
              , threat_type := if cls = 1 then some "unknown" else none
              , model_version := ver }

/-- The `POST /predict` endpoint (main.py lines 207-239): 503 when no
model is loaded, otherwise the single inference, with any raised model
error caught and turned into a 500. -/
def predict (st : ServerState) (f : NetworkTrafficFeatures) :
    Except HTTPError PredictionResponse :=
  match st.model with
  | none => .error ⟨503, "Model not loaded. Please train and load the model first."⟩
  | some m =>
    match inferOne st.model_version m f with
    | .ok r => .ok r
    | .error e => .error ⟨500, "Prediction failed: " ++ e⟩

/-- The `for features in request.features` loop of `predict_batch`
(main.py lines 259-272): items processed in order, appending each
result; the first raised error aborts the whole loop. -/
def batchLoop (ver : String) (m : Model) :
    List NetworkTrafficFeatures → Except String (List PredictionResponse)
  | [] => .ok []
  | f :: rest =>
    match inferOne ver m f with
    | .error e => .error e
    | .ok r =>
      match batchLoop ver m rest with
      | .error e => .error e
      | .ok rs => .ok (r :: rs)

/-- The `POST /predict/batch` endpoint (main.py lines 242-284): 503 when
no model is loaded, otherwise the loop over all items inside one `try`;
on success the response carries the predictions in order, their count,
and the elapsed wall-clock time (passed here as the parameter
`elapsed_ms`); any raised error aborts the batch with a 500 and no
partial results. -/
def predict_batch (st : ServerState) (elapsed_ms : ℚ)
    (fs : List NetworkTrafficFeatures) :
    Except HTTPError BatchPredictionResponse :=
  match st.model with
  | none => .error ⟨503, "Model not loaded. Please train and load the model first."⟩
  | some m =>
    match batchLoop st.model_version m fs with
    | .ok ps => .ok { predictions := ps
                    , total_processed := ps.length
                    , processing_time_ms := elapsed_ms }
    | .error e => .error ⟨500, "Batch prediction failed: " ++ e⟩

/-- The `GET /health` endpoint (main.py lines 192-204): always returns a
response; status healthy iff a model is loaded; the uptime reading uses
the current wall clock `now` and the load timestamp exactly as the
source expression does. -/
def health_check (st : ServerState) (now : ℚ) : HealthResponse :=
  { status := if st.model.isSome then "healthy" else "degraded"
  , model_loaded := st.model.isSome
  , model_version := if st.model.isSome then some st.model_version else none
  , model_loaded_at := st.model_loaded_at
  , uptime_seconds := now - (match st.model_loaded_at with
                             | some t => t
                             | none => now) }

/-- An untyped value of a raw request field: a JSON string, integer or
number. -/
inductive RawValue where
  | str (s : String)
  | int (n : ℤ)
  | num (q : ℚ)
deriving DecidableEq

/-- Modelled from the spec: the untyped structured input handed to the
validation engine — one optional raw value per declared attribute of
`NetworkTrafficFeatures` (a missing attribute is `none`).  The engine
that validates it (pydantic) is not part of src/; only the field
declarations are. -/
structure RawInput where
  duration : Option RawValue
  protocol_type : Option RawValue
  service : Option RawValue
  flag : Option RawValue
  src_bytes : Option RawValue
  dst_bytes : Option RawValue
  land : Option RawValue
  wrong_fragment : Option RawValue
  urgent : Option RawValue
  hot : Option RawValue
  num_failed_logins : Option RawValue
  logged_in : Option RawValue
  num_compromised : Option RawValue
  root_shell : Option RawValue
  su_attempted : Option RawValue
  num_root : Option RawValue
  num_file_creations : Option RawValue
  num_shells : Option RawValue
  num_access_files : Option RawValue
  num_outbound_cmds : Option RawValue
  is_host_login : Option RawValue
  is_guest_login : Option RawValue
  count : Option RawValue
  srv_count : Option RawValue
  serror_rate : Option RawValue
  srv_serror_rate : Option RawValue
  rerror_rate : Option RawValue
  srv_rerror_rate : Option RawValue
  same_srv_rate : Option RawValue
  diff_srv_rate : Option RawValue
  srv_diff_host_rate : Option RawValue
  dst_host_count : Option RawValue
  dst_host_srv_count : Option RawValue
  dst_host_same_srv_rate : Option RawValue
  dst_host_diff_srv_rate : Option RawValue
  dst_host_same_src_port_rate : Option RawValue
  dst_host_srv_diff_host_rate : Option RawValue
  dst_host_serror_rate : Option RawValue
  dst_host_srv_serror_rate : Option RawValue
  dst_host_rerror_rate : Option RawValue
  dst_host_srv_rerror_rate : Option RawValue
deriving DecidableEq

/-- Modelled from the spec: presence plus numeric coercion to a float
field (an integer coerces; a string does not). -/
def coerceFloat : Option RawValue → Except String ℚ
  | none => .error "field required"
  | some (.num q) => .ok q
  | some (.int n) => .ok (n : ℚ)
  | some (.str _) => .error "value is not a valid float"

/-- Modelled from the spec: presence plus coercion to an int field. -/
def coerceInt : Option RawValue → Except String ℤ
  | none => .error "field required"
  | some (.int n) => .ok n
  | some _ => .error "value is not a valid integer"

/-- Modelled from the spec: presence plus coercion to a free-form string
field. -/
def coerceStr : Option RawValue → Except String String
  | none => .error "field required"
  | some (.str s) => .ok s
  | some _ => .error "value is not a valid string"

/-- Range check `ge=0` on an int field. -/
def checkGe0 (x : Except String ℤ) : Except String ℤ :=
  x.bind fun n => if 0 ≤ n then .ok n else .error "ensure this value is greater than or equal to 0"

/-- Range check `ge=0, le=1` on a binary-indicator int field. -/
def checkBinary (x : Except String ℤ) : Except String ℤ :=
  x.bind fun n => if 0 ≤ n ∧ n ≤ 1 then .ok n else .error "ensure this value is between 0 and 1"

/-- Range check `ge=0, le=1` on a rate field. -/
def checkRate (x : Except String ℚ) : Except String ℚ :=
  x.bind fun q => if 0 ≤ q ∧ q ≤ 1 then .ok q else .error "ensure this value is between 0 and 1"

/-- Forget the coerced value, keeping only success or the error. -/
def toUnit {α : Type} (x : Except String α) : Except String Unit :=
  x.map fun _ => ()

/-- Modelled from the spec: the independent per-field checks of the
validation engine, one per declared attribute, in declaration order —
presence, numeric coercion, and the range constraint of each field. -/
def fieldChecks (r : RawInput) : List (String × Except String Unit) :=
  [ ("duration", toUnit (coerceFloat r.duration)),
    ("protocol_type", toUnit (coerceStr r.protocol_type)),
    ("service", toUnit (coerceStr r.service)),
    ("flag", toUnit (coerceStr r.flag)),
    ("src_bytes", toUnit (checkGe0 (coerceInt r.src_bytes))),
    ("dst_bytes", toUnit (checkGe0 (coerceInt r.dst_bytes))),
    ("land", toUnit (checkBinary (coerceInt r.land))),
    ("wrong_fragment", toUnit (checkGe0 (coerceInt r.wrong_fragment))),
    ("urgent", toUnit (checkGe0 (coerceInt r.urgent))),
    ("hot", toUnit (checkGe0 (coerceInt r.hot))),
    ("num_failed_logins", toUnit (checkGe0 (coerceInt r.num_failed_logins))),
    ("logged_in", toUnit (checkBinary (coerceInt r.logged_in))),
    ("num_compromised", toUnit (checkGe0 (coerceInt r.num_compromised))),
    ("root_shell", toUnit (checkBinary (coerceInt r.root_shell))),
    ("su_attempted", toUnit (checkBinary (coerceInt r.su_attempted))),
    ("num_root", toUnit (checkGe0 (coerceInt r.num_root))),
    ("num_file_creations", toUnit (checkGe0 (coerceInt r.num_file_creations))),
    ("num_shells", toUnit (checkGe0 (coerceInt r.num_shells))),
    ("num_access_files", toUnit (checkGe0 (coerceInt r.num_access_files))),
    ("num_outbound_cmds", toUnit (checkGe0 (coerceInt r.num_outbound_cmds))),
    ("is_host_login", toUnit (checkBinary (coerceInt r.is_host_login))),
    ("is_guest_login", toUnit (checkBinary (coerceInt r.is_guest_login))),
    ("count", toUnit (checkGe0 (coerceInt r.count))),
    ("srv_count", toUnit (checkGe0 (coerceInt r.srv_count))),
    ("serror_rate", toUnit (checkRate (coerceFloat r.serror_rate))),
    ("srv_serror_rate", toUnit (checkRate (coerceFloat r.srv_serror_rate))),
    ("rerror_rate", toUnit (checkRate (coerceFloat r.rerror_rate))),
    ("srv_rerror_rate", toUnit (checkRate (coerceFloat r.srv_rerror_rate))),
    ("same_srv_rate", toUnit (checkRate (coerceFloat r.same_srv_rate))),
    ("diff_srv_rate", toUnit (checkRate (coerceFloat r.diff_srv_rate))),
    ("srv_diff_host_rate", toUnit (checkRate (coerceFloat r.srv_diff_host_rate))),
    ("dst_host_count", toUnit (checkGe0 (coerceInt r.dst_host_count))),
    ("dst_host_srv_count", toUnit (checkGe0 (coerceInt r.dst_host_srv_count))),
    ("dst_host_same_srv_rate", toUnit (checkRate (coerceFloat r.dst_host_same_srv_rate))),
    ("dst_host_diff_srv_rate", toUnit (checkRate (coerceFloat r.dst_host_diff_srv_rate))),
    ("dst_host_same_src_port_rate", toUnit (checkRate (coerceFloat r.dst_host_same_src_port_rate))),
    ("dst_host_srv_diff_host_rate", toUnit (checkRate (coerceFloat r.dst_host_srv_diff_host_rate))),
    ("dst_host_serror_rate", toUnit (checkRate (coerceFloat r.dst_host_serror_rate))),
    ("dst_host_srv_serror_rate", toUnit (checkRate (coerceFloat r.dst_host_srv_serror_rate))),
    ("dst_host_rerror_rate", toUnit (checkRate (coerceFloat r.dst_host_rerror_rate))),
    ("dst_host_srv_rerror_rate", toUnit (checkRate (coerceFloat r.dst_host_srv_rerror_rate))) ]

/-- The names of the fields whose check fails, in declaration order. -/
def fieldErrors (r : RawInput) : List String :=
  (fieldChecks r).filterMap fun p =>
    match p.2 with
    | .error _ => some p.1
    | .ok _ => none

/-- The value of a successful check, or a default used only on the
all-checks-passed branch of `validate`. -/
def exGetD {α : Type} (x : Except String α) (d : α) : α :=
  match x with
  | .ok v => v
  | .error _ => d

/-- The record assembled from coerced raw values (referenced by
`validate` only when every check passed). -/
def buildRecord (r : RawInput) : NetworkTrafficFeatures :=
  { duration := exGetD (coerceFloat r.duration) 0
  , protocol_type := exGetD (coerceStr r.protocol_type) ""
  , service := exGetD (coerceStr r.service) ""
  , flag := exGetD (coerceStr r.flag) ""
  , src_bytes := exGetD (coerceInt r.src_bytes) 0
  , dst_bytes := exGetD (coerceInt r.dst_bytes) 0
  , land := exGetD (coerceInt r.land) 0
  , wrong_fragment := exGetD (coerceInt r.wrong_fragment) 0
  , urgent := exGetD (coerceInt r.urgent) 0
  , hot := exGetD (coerceInt r.hot) 0
  , num_failed_logins := exGetD (coerceInt r.num_failed_logins) 0
  , logged_in := exGetD (coerceInt r.logged_in) 0
  , num_compromised := exGetD (coerceInt r.num_compromised) 0
  , root_shell := exGetD (coerceInt r.root_shell) 0
  , su_attempted := exGetD (coerceInt r.su_attempted) 0
  , num_root := exGetD (coerceInt r.num_root) 0
  , num_file_creations := exGetD (coerceInt r.num_file_creations) 0
  , num_shells := exGetD (coerceInt r.num_shells) 0
  , num_access_files := exGetD (coerceInt r.num_access_files) 0
  , num_outbound_cmds := exGetD (coerceInt r.num_outbound_cmds) 0
  , is_host_login := exGetD (coerceInt r.is_host_login) 0
  , is_guest_login := exGetD (coerceInt r.is_guest_login) 0
  , count := exGetD (coerceInt r.count) 0
  , srv_count := exGetD (coerceInt r.srv_count) 0
  , serror_rate := exGetD (coerceFloat r.serror_rate) 0
  , srv_serror_rate := exGetD (coerceFloat r.srv_serror_rate) 0
  , rerror_rate := exGetD (coerceFloat r.rerror_rate) 0
  , srv_rerror_rate := exGetD (coerceFloat r.srv_rerror_rate) 0
  , same_srv_rate := exGetD (coerceFloat r.same_srv_rate) 0
  , diff_srv_rate := exGetD (coerceFloat r.diff_srv_rate) 0
  , srv_diff_host_rate := exGetD (coerceFloat r.srv_diff_host_rate) 0
  , dst_host_count := exGetD (coerceInt r.dst_host_count) 0
  , dst_host_srv_count := exGetD (coerceInt r.dst_host_srv_count) 0
  , dst_host_same_srv_rate := exGetD (coerceFloat r.dst_host_same_srv_rate) 0
  , dst_host_diff_srv_rate := exGetD (coerceFloat r.dst_host_diff_srv_rate) 0
  , dst_host_same_src_port_rate := exGetD (coerceFloat r.dst_host_same_src_port_rate) 0
  , dst_host_srv_diff_host_rate := exGetD (coerceFloat r.dst_host_srv_diff_host_rate) 0
  , dst_host_serror_rate := exGetD (coerceFloat r.dst_host_serror_rate) 0
  , dst_host_srv_serror_rate := exGetD (coerceFloat r.dst_host_srv_serror_rate) 0
  , dst_host_rerror_rate := exGetD (coerceFloat r.dst_host_rerror_rate) 0
  , dst_host_srv_rerror_rate := exGetD (coerceFloat r.dst_host_srv_rerror_rate) 0 }

/-- Modelled from the spec: the validation engine runs every per-field
check independently (collect-all, not fail-fast) and fails with the
list of every violated field, or returns the validated record. -/
def validate (r : RawInput) : Except (List String) NetworkTrafficFeatures :=
  if fieldErrors r = [] then .ok (buildRecord r) else .error (fieldErrors r)

/-- Two feature records carry the same values on all 41 fields: the
sense in which two separate request objects are the same record. -/
def sameRecord (f g : NetworkTrafficFeatures) : Prop :=
  f.duration = g.duration ∧ f.protocol_type = g.protocol_type ∧
  f.service = g.service ∧ f.flag = g.flag ∧
  f.src_bytes = g.src_bytes ∧ f.dst_bytes = g.dst_bytes ∧
  f.land = g.land ∧ f.wrong_fragment = g.wrong_fragment ∧
  f.urgent = g.urgent ∧ f.hot = g.hot ∧
  f.num_failed_logins = g.num_failed_logins ∧ f.logged_in = g.logged_in ∧
  f.num_compromised = g.num_compromised ∧ f.root_shell = g.root_shell ∧
  f.su_attempted = g.su_attempted ∧ f.num_root = g.num_root ∧
  f.num_file_creations = g.num_file_creations ∧ f.num_shells = g.num_shells ∧
  f.num_access_files = g.num_access_files ∧
  f.num_outbound_cmds = g.num_outbound_cmds ∧
  f.is_host_login = g.is_host_login ∧ f.is_guest_login = g.is_guest_login ∧
  f.count = g.count ∧ f.srv_count = g.srv_count ∧
  f.serror_rate = g.serror_rate ∧ f.srv_serror_rate = g.srv_serror_rate ∧
  f.rerror_rate = g.rerror_rate ∧ f.srv_rerror_rate = g.srv_rerror_rate ∧
  f.same_srv_rate = g.same_srv_rate ∧ f.diff_srv_rate = g.diff_srv_rate ∧
  f.srv_diff_host_rate = g.srv_diff_host_rate ∧
  f.dst_host_count = g.dst_host_count ∧
  f.dst_host_srv_count = g.dst_host_srv_count ∧
  f.dst_host_same_srv_rate = g.dst_host_same_srv_rate ∧
  f.dst_host_diff_srv_rate = g.dst_host_diff_srv_rate ∧
  f.dst_host_same_src_port_rate = g.dst_host_same_src_port_rate ∧
  f.dst_host_srv_diff_host_rate = g.dst_host_srv_diff_host_rate ∧
  f.dst_host_serror_rate = g.dst_host_serror_rate ∧
  f.dst_host_srv_serror_rate = g.dst_host_srv_serror_rate ∧
  f.dst_host_rerror_rate = g.dst_host_rerror_rate ∧
  f.dst_host_srv_rerror_rate = g.dst_host_srv_rerror_rate

instance (f g : NetworkTrafficFeatures) : Decidable (sameRecord f g) := by
  unfold sameRecord; infer_instance

/-- Two feature records agree on every field except possibly the three
categorical ones (protocol_type, service, flag). -/
def agreeExceptCategorical (f g : NetworkTrafficFeatures) : Prop :=
  f.duration = g.duration ∧
  f.src_bytes = g.src_bytes ∧ f.dst_bytes = g.dst_bytes ∧
  f.land = g.land ∧ f.wrong_fragment = g.wrong_fragment ∧
  f.urgent = g.urgent ∧ f.hot = g.hot ∧
  f.num_failed_logins = g.num_failed_logins ∧ f.logged_in = g.logged_in ∧
  f.num_compromised = g.num_compromised ∧ f.root_shell = g.root_shell ∧
  f.su_attempted = g.su_attempted ∧ f.num_root = g.num_root ∧
  f.num_file_creations = g.num_file_creations ∧ f.num_shells = g.num_shells ∧
  f.num_access_files = g.num_access_files ∧
  f.num_outbound_cmds = g.num_outbound_cmds ∧
  f.is_host_login = g.is_host_login ∧ f.is_guest_login = g.is_guest_login ∧
  f.count = g.count ∧ f.srv_count = g.srv_count ∧
  f.serror_rate = g.serror_rate ∧ f.srv_serror_rate = g.srv_serror_rate ∧
  f.rerror_rate = g.rerror_rate ∧ f.srv_rerror_rate = g.srv_rerror_rate ∧
  f.same_srv_rate = g.same_srv_rate ∧ f.diff_srv_rate = g.diff_srv_rate ∧
  f.srv_diff_host_rate = g.srv_diff_host_rate ∧
  f.dst_host_count = g.dst_host_count ∧
  f.dst_host_srv_count = g.dst_host_srv_count ∧
  f.dst_host_same_srv_rate = g.dst_host_same_srv_rate ∧
  f.dst_host_diff_srv_rate = g.dst_host_diff_srv_rate ∧
  f.dst_host_same_src_port_rate = g.dst_host_same_src_port_rate ∧
  f.dst_host_srv_diff_host_rate = g.dst_host_srv_diff_host_rate ∧
  f.dst_host_serror_rate = g.dst_host_serror_rate ∧
  f.dst_host_srv_serror_rate = g.dst_host_srv_serror_rate ∧
  f.dst_host_rerror_rate = g.dst_host_rerror_rate ∧
  f.dst_host_srv_rerror_rate = g.dst_host_srv_rerror_rate

instance (f g : NetworkTrafficFeatures) :
    Decidable (agreeExceptCategorical f g) := by
  unfold agreeExceptCategorical; infer_instance

/-- A benign all-zero record (the §8 scenario record of the spec). -/
def rec0 : NetworkTrafficFeatures :=
  ⟨0, "tcp", "http", "SF",
   0, 0, 0, 0, 0, 0, 0, 0, 0, 0, 0, 0, 0, 0, 0, 0, 0, 0, 0, 0,
   0, 0, 0, 0, 0, 0, 0,
   0, 0,
   0, 0, 0, 0, 0, 0, 0, 0⟩

/-- The same record with different categorical fields only. -/
def rec1 : NetworkTrafficFeatures :=
  setCategoricals rec0 "udp" "ftp" "S0"

/-- An artifact that always answers class 1 with probability vector
`[1]`. -/
def constM : Model :=
  { predict := fun _ => .ok [1], predict_proba := fun _ => .ok [1] }

/-- An artifact whose predict call raises at the model boundary. -/
def badM : Model :=
  { predict := fun _ => .error "boom", predict_proba := fun _ => .ok [1] }

/-- A server state with the given artifact loaded. -/
def readyState (m : Model) : ServerState :=
  { model := some m, model_version := "v1.0", model_loaded_at := some 0 }

/-- The response the constant-class-1 artifact yields on any record. -/
def r0malicious : PredictionResponse :=
  { prediction := "malicious", confidence := 1
  , threat_type := some "unknown", model_version := "v1.0" }

/-- A raw input with every attribute missing: all 41 checks fail. -/
def rawEmpty : RawInput :=
  ⟨none, none, none, none, none, none, none, none, none, none, none,
   none, none, none, none, none, none, none, none, none, none, none,
   none, none, none, none, none, none, none, none, none, none, none,
   none, none, none, none, none, none, none, none⟩

/-- The batch response the constant-class-1 artifact yields on a
singleton batch with a 5 ms clock reading. -/
def respSingle : BatchPredictionResponse :=
  ⟨[r0malicious], 1, 5⟩

lemma inferOne_congr (ver : String) (m : Model)
    {f g : NetworkTrafficFeatures}
    (h : preprocess_features f = preprocess_features g) :
    inferOne ver m f = inferOne ver m g := by
  unfold inferOne
  rw [h]

lemma inferOne_ok_inversion (ver : String) (m : Model)
    (f : NetworkTrafficFeatures) (r : PredictionResponse)
    (h : inferOne ver m f = .ok r) :
    ∃ preds cls probs conf,
      m.predict (preprocess_features f) = .ok preds ∧
      index0 preds = .ok cls ∧
      m.predict_proba (preprocess_features f) = .ok probs ∧
      npMax probs = .ok conf ∧
      r = { prediction := if cls = 1 then "malicious" else "normal"
          , confidence := conf
          , threat_type := if cls = 1 then some "unknown" else none
          , model_version := ver } := by
  simp only [inferOne] at h
  split at h
  next e hp => cases h
  next preds hp =>
    split at h
    next e hi => cases h
    next cls hi =>
      split at h
      next e hq => cases h
      next probs hq =>
        split at h
        next e hn => cases h
        next conf hn =>
          cases h
          exact ⟨preds, cls, probs, conf, hp, hi, hq, hn, rfl⟩

lemma batchLoop_eq_mapM (ver : String) (m : Model)
    (fs : List NetworkTrafficFeatures) :
    batchLoop ver m fs = fs.mapM (inferOne ver m) := by
  induction fs with
  | nil => rfl
  | cons f rest ih =>
    rw [List.mapM_cons, batchLoop, ih]
    cases h : inferOne ver m f with
    | error e => rfl
    | ok r =>
      cases hrest : List.mapM (inferOne ver m) rest with
      | error e => rfl
      | ok rs => rfl

lemma batchLoop_ok (ver : String) (m : Model)
    (fs : List NetworkTrafficFeatures) (ps : List PredictionResponse)
    (h : batchLoop ver m fs = .ok ps) :
    ps.length = fs.length ∧
    ∀ i (h1 : i < fs.length) (h2 : i < ps.length),
      inferOne ver m (fs.get ⟨i, h1⟩) = .ok (ps.get ⟨i, h2⟩) := by
  induction fs generalizing ps with
  | nil =>
    unfold batchLoop at h
    cases h
    exact ⟨rfl, fun i h1 _ => absurd h1 (Nat.not_lt_zero i)⟩
  | cons f rest ih =>
    unfold batchLoop at h
    cases hf : inferOne ver m f with
    | error e => rw [hf] at h; cases h
    | ok r =>
      rw [hf] at h
      cases hrest : batchLoop ver m rest with
      | error e => rw [hrest] at h; cases h
      | ok rs =>
        rw [hrest] at h
        cases h
        obtain ⟨hlen, hpt⟩ := ih rs hrest
        refine ⟨by simp [hlen], ?_⟩
        intro i h1 h2
        cases i with
        | zero => simpa using hf
        | succ n =>
          have h1r : n < rest.length := Nat.lt_of_succ_lt_succ h1
          have h2r : n < rs.length := Nat.lt_of_succ_lt_succ h2
          simpa using hpt n h1r h2r

lemma batchLoop_err (ver : String) (m : Model)
    (fs : List NetworkTrafficFeatures)
    (h : ∃ f ∈ fs, ∃ e, inferOne ver m f = .error e) :
    ∃ e, batchLoop ver m fs = .error e := by
  induction fs with
  | nil => obtain ⟨f, hf, _⟩ := h; cases hf
  | cons f rest ih =>
    cases hf : inferOne ver m f with
    | error e => exact ⟨e, by unfold batchLoop; rw [hf]⟩
    | ok r =>
      obtain ⟨f0, hmem, e0, he0⟩ := h
      rcases List.mem_cons.mp hmem with rfl | hmem2
      · rw [hf] at he0; cases he0
      · obtain ⟨e, hrest⟩ := ih ⟨f0, hmem2, e0, he0⟩
        exact ⟨e, by unfold batchLoop; rw [hf, hrest]⟩

lemma foldl_failed_loads (envs : List LoadEnv) (st : ServerState)
    (h : ∀ e ∈ envs, loadSucceeds e = false) :
    envs.foldl (fun s e => (load_model e s).1) st = st := by
  induction envs generalizing st with
  | nil => rfl
  | cons e rest ih =>
    have he := h e (List.mem_cons_self e rest)
    have hstep : (load_model e st).1 = st := by
      cases e with
      | artifactOk m t => simp [loadSucceeds] at he
      | fileMissing => rfl
      | deserializeError => rfl
    rw [List.foldl_cons, hstep]
    exact ih st (fun x hx => h x (List.mem_cons_of_mem e hx))

/-- Claim C1: on every valid feature record, `preprocess_features`
produces a vector of exactly 38 entries, equal to the fixed canonical
list of numeric/binary projections in order, and replacing the three
categorical fields (protocol_type, service, flag) by anything leaves the
vector unchanged — they are omitted entirely. -/
theorem C1_encoding_38_fixed_order (f : NetworkTrafficFeatures)
    (hv : Valid f) :
    (preprocess_features f).length = 38 ∧
    preprocess_features f = numericFeatureOrder.map (fun pr => pr f) ∧
    ∀ p s fl, preprocess_features (setCategoricals f p s fl) =
      preprocess_features f :=
  ⟨rfl, rfl, fun _ _ _ => rfl⟩

/-- Witness for C1 at the all-zero benign record. -/
theorem C1_encoding_38_fixed_order_witness :
    Valid rec0 ∧ (preprocess_features rec0).length = 38 :=
  ⟨by decide, (C1_encoding_38_fixed_order rec0 (by decide)).1⟩

/-- Claim C2: whenever single inference succeeds, model class 1 maps to
label malicious with threat type unknown and model class 0 maps to label
normal with no threat type; and the batch loop is exactly the same
single-item inference mapped over the items, so every batch item gets
the same mapping. -/
theorem C2_class_label_mapping (ver : String) (m : Model)
    (f : NetworkTrafficFeatures) (r : PredictionResponse)
    (h : inferOne ver m f = .ok r) :
    ((∃ rest, m.predict (preprocess_features f) = .ok (1 :: rest)) →
       r.prediction = "malicious" ∧ r.threat_type = some "unknown") ∧
    ((∃ rest, m.predict (preprocess_features f) = .ok (0 :: rest)) →
       r.prediction = "normal" ∧ r.threat_type = none) ∧
    ∀ fs, batchLoop ver m fs = fs.mapM (inferOne ver m) := by
  obtain ⟨preds, cls, probs, conf, hp, hi, hq, hn, hr⟩ :=
    inferOne_ok_inversion ver m f r h
  refine ⟨?_, ?_, fun fs => batchLoop_eq_mapM ver m fs⟩
  · rintro ⟨rest, hpred⟩
    rw [hp] at hpred
    injection hpred with hlist
    subst hlist
    simp only [index0] at hi
    injection hi with hcls
    subst hcls
    rw [hr]
    exact ⟨rfl, rfl⟩
  · rintro ⟨rest, hpred⟩
    rw [hp] at hpred
    injection hpred with hlist
    subst hlist
    simp only [index0] at hi
    injection hi with hcls
    subst hcls
    rw [hr]
    refine ⟨?_, ?_⟩ <;> simp

/-- Witness for C2: the constant-class-1 artifact on the benign record
yields the malicious/unknown response. -/
theorem C2_class_label_mapping_witness :
    inferOne "v1.0" constM rec0 = .ok r0malicious ∧
    r0malicious.prediction = "malicious" ∧
    r0malicious.threat_type = some "unknown" :=
  ⟨rfl, (C2_class_label_mapping "v1.0" constM rec0 r0malicious rfl).1 ⟨[], rfl⟩⟩

/-- Claim C3: when no model is loaded, both prediction endpoints fail
with the 503 not-ready error, for every possible input — so no encoding
or classification work on any item can influence the outcome and the
operation never crashes. -/
theorem C3_not_ready_503 (st : ServerState) (h : st.model = none) :
    (∀ f, predict st f =
      .error ⟨503, "Model not loaded. Please train and load the model first."⟩) ∧
    (∀ elapsed fs, predict_batch st elapsed fs =
      .error ⟨503, "Model not loaded. Please train and load the model first."⟩) := by
  refine ⟨fun f => ?_, fun elapsed fs => ?_⟩ <;>
    simp [predict, predict_batch, h]

/-- Witness for C3 at the startup state, which has no model. -/
theorem C3_not_ready_503_witness :
    initialState.model = none ∧
    predict initialState rec0 =
      .error ⟨503, "Model not loaded. Please train and load the model first."⟩ :=
  ⟨rfl, (C3_not_ready_503 initialState rfl).1 rec0⟩

/-- Claim C4: if any item of a batch fails at the model boundary, the
whole batch operation returns a 500 error, hence delivers no
PredictionResult for any item (the success payload with its predictions
list is never produced). -/
theorem C4_batch_abort_no_partial (st : ServerState) (m : Model)
    (elapsed : ℚ) (fs : List NetworkTrafficFeatures)
    (hm : st.model = some m)
    (hfail : ∃ f ∈ fs, ∃ e, inferOne st.model_version m f = .error e) :
    ∃ e, predict_batch st elapsed fs =
      .error ⟨500, "Batch prediction failed: " ++ e⟩ := by
  obtain ⟨e, hb⟩ := batchLoop_err st.model_version m fs hfail
  exact ⟨e, by simp [predict_batch, hm, hb]⟩

/-- Witness for C4: a raising artifact on a singleton batch. -/
theorem C4_batch_abort_no_partial_witness :
    (readyState badM).model = some badM ∧
    (∃ f ∈ [rec0], ∃ e,
      inferOne (readyState badM).model_version badM f = .error e) ∧
    ∃ e, predict_batch (readyState badM) 0 [rec0] =
      .error ⟨500, "Batch prediction failed: " ++ e⟩ :=
  ⟨rfl, ⟨rec0, by simp, "boom", rfl⟩,
   C4_batch_abort_no_partial (readyState badM) badM 0 [rec0] rfl
     ⟨rec0, by simp, "boom", rfl⟩⟩

/-- Claim C5: a successful batch over N records has exactly N
predictions, positionally aligned: entry i is the single-item inference
of input i; and the empty batch succeeds with an empty prediction list
and total_processed = 0. -/
theorem C5_batch_order_and_empty (st : ServerState) (m : Model)
    (elapsed : ℚ) (fs : List NetworkTrafficFeatures)
    (resp : BatchPredictionResponse) (hm : st.model = some m)
    (h : predict_batch st elapsed fs = .ok resp) :
    resp.predictions.length = fs.length ∧
    resp.total_processed = fs.length ∧
    (∀ i (h1 : i < fs.length) (h2 : i < resp.predictions.length),
       inferOne st.model_version m (fs.get ⟨i, h1⟩) =
         .ok (resp.predictions.get ⟨i, h2⟩)) ∧
    predict_batch st elapsed ([] : List NetworkTrafficFeatures) =
      .ok ⟨[], 0, elapsed⟩ := by
  have hempty : predict_batch st elapsed ([] : List NetworkTrafficFeatures) =
      .ok ⟨[], 0, elapsed⟩ := by
    simp [predict_batch, hm, batchLoop]
  simp only [predict_batch, hm] at h
  cases hb : batchLoop st.model_version m fs with
  | error e => rw [hb] at h; cases h
  | ok ps =>
    rw [hb] at h
    cases h
    obtain ⟨hlen, hpt⟩ := batchLoop_ok st.model_version m fs ps hb
    exact ⟨hlen, hlen, hpt, hempty⟩

/-- Witness for C5: the constant-class-1 artifact on a singleton batch
gives one aligned prediction. -/
theorem C5_batch_order_and_empty_witness :
    (readyState constM).model = some constM ∧
    predict_batch (readyState constM) 5 [rec0] = .ok respSingle ∧
    respSingle.predictions.length = [rec0].length :=
  ⟨rfl, rfl,
   (C5_batch_order_and_empty (readyState constM) constM 5 [rec0] respSingle
     rfl rfl).1⟩

/-- Claim C6: readiness is false at startup, a successful load makes it
true, a failed load (missing file or deserialization error) leaves the
whole state — hence readiness — unchanged, and any sequence of failed
loads from startup leaves readiness false. -/
theorem C6_readiness_state_machine :
    is_ready initialState = false ∧
    (∀ env st, loadSucceeds env = true →
       is_ready (load_model env st).1 = true) ∧
    (∀ env st, loadSucceeds env = false → (load_model env st).1 = st) ∧
    (∀ envs : List LoadEnv, (∀ e ∈ envs, loadSucceeds e = false) →
       is_ready (envs.foldl (fun s e => (load_model e s).1) initialState) =
         false) := by
  refine ⟨rfl, ?_, ?_, ?_⟩
  · intro env st h
    cases env with
    | artifactOk m t => rfl
    | fileMissing => simp [loadSucceeds] at h
    | deserializeError => simp [loadSucceeds] at h
  · intro env st h
    cases env with
    | artifactOk m t => simp [loadSucceeds] at h
    | fileMissing => rfl
    | deserializeError => rfl
  · intro envs h
    rw [foldl_failed_loads envs initialState h]
    rfl

/-- Witness for C6: a missing-file load leaves the startup state
unchanged, and a successful load makes readiness true. -/
theorem C6_readiness_state_machine_witness :
    (load_model LoadEnv.fileMissing initialState).1 = initialState ∧
    is_ready (load_model (LoadEnv.artifactOk constM 0) initialState).1 = true :=
  ⟨C6_readiness_state_machine.2.2.1 LoadEnv.fileMissing initialState rfl,
   C6_readiness_state_machine.2.1 (LoadEnv.artifactOk constM 0) initialState rfl⟩

/-- Claim C7: on any raw input with more than one violated field, the
validation engine fails and the error list names every violated field,
not only the first (spec-modelled: the engine is pydantic, outside
src/). -/
theorem C7_validation_collects_all (r : RawInput)
    (h : 1 < (fieldErrors r).length) :
    ∃ errs, validate r = .error errs ∧
      ∀ name msg, (name, Except.error msg) ∈ fieldChecks r → name ∈ errs := by
  have hne : fieldErrors r ≠ [] := by
    intro hnil
    rw [hnil] at h
    simp at h
  refine ⟨fieldErrors r, ?_, ?_⟩
  · unfold validate
    rw [if_neg hne]
  · intro name msg hmem
    unfold fieldErrors
    exact List.mem_filterMap.mpr ⟨(name, Except.error msg), hmem, rfl⟩

/-- Witness for C7: the all-missing raw input violates all 41 fields. -/
theorem C7_validation_collects_all_witness :
    1 < (fieldErrors rawEmpty).length ∧
    ∃ errs, validate rawEmpty = .error errs ∧
      ∀ name msg,
        (name, Except.error msg) ∈ fieldChecks rawEmpty → name ∈ errs :=
  ⟨by decide, C7_validation_collects_all rawEmpty (by decide)⟩

/-- Claim C8: the health report is a total function of the state — it
always returns a response — whose status is healthy exactly when a model
is loaded and degraded otherwise, with model_loaded mirroring
readiness. -/
theorem C8_health_total (st : ServerState) (now : ℚ) :
    ((health_check st now).status =
       if is_ready st then "healthy" else "degraded") ∧
    ((health_check st now).status = "healthy" ↔ is_ready st = true) ∧
    (health_check st now).model_loaded = is_ready st := by
  refine ⟨rfl, ?_, rfl⟩
  cases hm : st.model with
  | none => simp [health_check, is_ready, hm]
  | some m => simp [health_check, is_ready, hm]

/-- Claim C9: encoding is deterministic and total on valid records —
two records carrying the same 41 field values encode to identical
vectors, and for every valid record the encoder yields a (38-entry)
vector, with no failure path. -/
theorem C9_preprocess_deterministic_total (f g : NetworkTrafficFeatures)
    (hv : Valid f) (h : sameRecord f g) :
    preprocess_features f = preprocess_features g ∧
    ∃ v : List ℚ, preprocess_features f = v ∧ v.length = 38 := by
  refine ⟨?_, ⟨preprocess_features f, rfl, rfl⟩⟩
  obtain ⟨h1, h2, h3, h4, h5, h6, h7, h8, h9, h10, h11, h12, h13, h14, h15,
    h16, h17, h18, h19, h20, h21, h22, h23, h24, h25, h26, h27, h28, h29,
    h30, h31, h32, h33, h34, h35, h36, h37, h38, h39, h40, h41⟩ := h
  simp only [preprocess_features, h1, h5, h6, h7, h8, h9, h10, h11, h12,
    h13, h14, h15, h16, h17, h18, h19, h20, h21, h22, h23, h24, h25, h26,
    h27, h28, h29, h30, h31, h32, h33, h34, h35, h36, h37, h38, h39, h40,
    h41]

/-- Witness for C9 at the all-zero benign record. -/
theorem C9_preprocess_deterministic_total_witness :
    Valid rec0 ∧ sameRecord rec0 rec0 ∧
    preprocess_features rec0 = preprocess_features rec0 :=
  ⟨by decide, by decide,
   (C9_preprocess_deterministic_total rec0 rec0 (by decide) (by decide)).1⟩

/-- Claim C10: noninterference of the categorical fields — two valid
records agreeing on everything except protocol_type, service and flag
encode to identical vectors, and the single-prediction endpoint returns
the same result (label, confidence, threat_type) for both against any
server state. -/
theorem C10_categorical_noninterference (f g : NetworkTrafficFeatures)
    (hf : Valid f) (hg : Valid g) (h : agreeExceptCategorical f g) :
    preprocess_features f = preprocess_features g ∧
    ∀ st : ServerState, predict st f = predict st g := by
  have hpre : preprocess_features f = preprocess_features g := by
    obtain ⟨h1, h2, h3, h4, h5, h6, h7, h8, h9, h10, h11, h12, h13, h14,
      h15, h16, h17, h18, h19, h20, h21, h22, h23, h24, h25, h26, h27, h28,
      h29, h30, h31, h32, h33, h34, h35, h36, h37, h38⟩ := h
    simp only [preprocess_features, h1, h2, h3, h4, h5, h6, h7, h8, h9, h10,
      h11, h12, h13, h14, h15, h16, h17, h18, h19, h20, h21, h22, h23, h24,
      h25, h26, h27, h28, h29, h30, h31, h32, h33, h34, h35, h36, h37, h38]
  refine ⟨hpre, fun st => ?_⟩
  cases hm : st.model with
  | none => simp [predict, hm]
  | some m => simp [predict, hm, inferOne_congr st.model_version m hpre]

/-- Witness for C10: the benign record and its categorical variant
encode identically. -/
theorem C10_categorical_noninterference_witness :
    Valid rec0 ∧ Valid rec1 ∧ agreeExceptCategorical rec0 rec1 ∧
    preprocess_features rec0 = preprocess_features rec1 :=
  ⟨by decide, by decide, by decide,
   (C10_categorical_noninterference rec0 rec1 (by decide) (by decide)
     (by decide)).1⟩

end Sonic
